import Mathlib

/-!
Verification of `src/audits/performance/speed-index-metric.js`.

The audit file is embedded shallowly: the promise chain of `audit` becomes a
total function from a description of the external collaborators' behaviour to
the audit-result record, and JavaScript numbers that may be `NaN` are
modelled by `JSNum`.  `TracingProcessor.getLogNormalDistribution` (from
`lib/traces/tracing-processor.js`) and the base-class `generateAuditResult`
(from `audits/audit.js`) are files of the repository that are not among the
sources here; they are modelled from the specification, as documented on the
individual definitions.
-/

noncomputable section

/-- JavaScript's `Math.round` on a (non-`NaN`) number: round half towards
positive infinity, `Math.round x = ⌊x + 1/2⌋`. -/
def jsRound (x : ℝ) : ℤ := ⌊x + 1 / 2⌋

/-- A JavaScript number as it flows through the audit: a real value, or `NaN`
(what JS arithmetic produces when `results.speedIndex` is absent or not a
number: `Math.log`, `*`, `Math.min`, `Math.max` and `Math.round` all map a
`NaN` operand to `NaN`). -/
inductive JSNum where
  | nan : JSNum
  | val : ℝ → JSNum

/-- Apply a real JS math function (one that sends a `NaN` operand to `NaN`,
as all the operations used on lines 88-96 of the source do) to a `JSNum`. -/
def JSNum.lift (f : ℝ → ℝ) : JSNum → JSNum
  | JSNum.nan => JSNum.nan
  | JSNum.val x => JSNum.val (f x)

namespace TracingProcessor

/-- Modelled from the spec: the cubic z-score polynomial of the Bowling
logistic approximation of the standard normal CDF; see `stdNormalCDF`. -/
def zScorePoly (z : ℝ) : ℝ := 1.5976 * z + 0.07056 * z ^ 3

/-- Modelled from the spec (§4.1): the standard normal CDF used by the
distribution scorer of `lib/traces/tracing-processor.js`, a file of the
repository that is not among the sources here.  The spec lets implementers
realize it with any standard library approximation; here it is the Bowling
logistic approximation `Φ(z) ≈ 1 / (1 + exp (-(1.5976·z + 0.07056·z³)))`
(maximum absolute error below `1.5e-4`, well within the ±1% tolerance the
spec demands of the anchor points). -/
def stdNormalCDF (z : ℝ) : ℝ := 1 / (1 + Real.exp (-(zScorePoly z)))

/-- Modelled from the spec (§4.1, §9): the z-score of the fixed reference
fraction: the model's CDF equals `stdNormalCDF (-referenceZ)` at the point of
diminishing returns.  The spec leaves the exact fraction open and asks for it
to be calibrated against the anchor table of §4.1; this value reproduces all
five anchors. -/
def referenceZ : ℝ := 2.1177

/-- The distribution object returned by `getLogNormalDistribution`. -/
structure Distribution where
  computeComplementaryPercentile : ℝ → ℝ

/-- Modelled from the spec (§4.1): `getLogNormalDistribution median pdr`
builds the log-normal model with location `μ = log median` (so the median of
the distribution is `median`) and shape `σ = log (median / pdr) / referenceZ`
(so the CDF takes the fixed reference fraction at `pdr`), and exposes
`computeComplementaryPercentile x = 1 - CDF x` where `CDF` is the log-normal
CDF: `0` for `x ≤ 0`, else `stdNormalCDF ((log x - μ) / σ)`. -/
def getLogNormalDistribution (median pdr : ℝ) : Distribution :=
  { computeComplementaryPercentile := fun x =>
      if x ≤ 0 then 1
      else 1 - stdNormalCDF ((Real.log x - Real.log median) /
        (Real.log (median / pdr) / referenceZ)) }

end TracingProcessor

/-- Constant from line 24 of the source. -/
def FAILURE_MESSAGE : String := "Navigation and first paint timings not found."

/-- Constant from line 28 of the source (in ms). -/
def SCORING_POINT_OF_DIMINISHING_RETURNS : ℝ := 1250

/-- Constant from line 29 of the source (in ms). -/
def SCORING_MEDIAN : ℝ := 5500

/-- Behaviour of the external `speedline` collaborator on a well-formed
trace: the returned promise either rejects (with an error carrying `msg` as
its `message`) or resolves with a results object whose `speedIndex` field is
a number, `JSNum.nan` standing for an absent or non-numeric field. -/
inductive SpeedlineOutcome where
  | throws : String → SpeedlineOutcome
  | resolves : JSNum → SpeedlineOutcome

/-- The part of the gatherer artifacts that `audit` looks at. -/
structure Artifacts where
  /-- whether `artifacts.traceContents` is truthy and passes `Array.isArray`
  (the test on line 75 of the source) -/
  traceContentsIsArray : Bool
  /-- what `speedline` does when invoked on `traceContents` -/
  speedline : SpeedlineOutcome

/-- The audit-result record (output contract of spec §6). -/
structure AuditResult where
  score : JSNum
  rawValue : Option JSNum
  debugString : Option String

/-- Modelled from the spec (§6): `Audit.generateAuditResult` of the base
class in `audits/audit.js` (not among the sources here) packages the computed
values into the result record consumed by the reporting layer; `value`
becomes the `score` field, absent fields stay absent. -/
def generateAuditResult (value : JSNum) (rawValue : Option JSNum)
    (debugString : Option String) : AuditResult :=
  { score := value, rawValue := rawValue, debugString := debugString }

namespace SpeedIndexMetric

/-- Static getter `category` (source line 35). -/
def category : String := "Performance"

/-- Static getter `name` (source line 42). -/
def name : String := "speed-index-metric"

/-- Static getter `description` (source line 49). -/
def description : String := "Speed Index"

/-- Static getter `optimalValue` (source line 56). -/
def optimalValue : String := "1,000"

/-- Static getter `requiredArtifacts` (source line 63). -/
def requiredArtifacts : List String := ["traceContents"]

/-- The first two promise stages of `audit` (source lines 74-79): resolve the
trace contents, reject with `FAILURE_MESSAGE` when the trace is falsy or not
an array, otherwise hand the trace to `speedline`.  `Except.error msg` is a
rejected promise whose error has message `msg`. -/
def traceStage (artifacts : Artifacts) : Except String JSNum :=
  if artifacts.traceContentsIsArray = false then Except.error FAILURE_MESSAGE
  else
    match artifacts.speedline with
    | SpeedlineOutcome.throws msg => Except.error msg
    | SpeedlineOutcome.resolves speedIndex => Except.ok speedIndex

/-- The scoring stage of `audit` (source lines 80-95): build the distribution
from the fixed calibration, scale the complementary percentile to 0-100,
clamp to `[0, 100]` and round. -/
def speedIndexScore (speedIndex : JSNum) : JSNum :=
  let distribution := TracingProcessor.getLogNormalDistribution SCORING_MEDIAN
    SCORING_POINT_OF_DIMINISHING_RETURNS
  let score := speedIndex.lift fun si =>
    100 * distribution.computeComplementaryPercentile si
  let score := score.lift fun s => min 100 s
  let score := score.lift fun s => max 0 s
  score.lift fun s => ((jsRound s : ℤ) : ℝ)

/-- `audit` (source lines 73-113): the promise chain with its `.catch`
recovery and the final packaging `.then`.  The scoring stage is pure JS
arithmetic and cannot reject, so the failures the `.catch` sees are exactly
those of `traceStage`; on failure the intermediate record carries no
`rawValue`, so the packaged result's `rawValue` is absent. -/
def audit (artifacts : Artifacts) : AuditResult :=
  match traceStage artifacts with
  | Except.ok speedIndex =>
      generateAuditResult (speedIndexScore speedIndex)
        (some (speedIndex.lift fun si => ((jsRound si : ℤ) : ℝ))) none
  | Except.error msg => generateAuditResult (JSNum.val (-1)) none (some msg)

end SpeedIndexMetric

/-! ### Basic facts about `jsRound` and the clamp of lines 90-92 -/

lemma jsRound_mono {a b : ℝ} (h : a ≤ b) : jsRound a ≤ jsRound b :=
  Int.floor_le_floor (by linarith)

lemma jsRound_zero : jsRound 0 = 0 := by norm_num [jsRound]

lemma jsRound_hundred : jsRound 100 = 100 := by norm_num [jsRound]

lemma jsRound_nonneg {a : ℝ} (h : 0 ≤ a) : 0 ≤ jsRound a := by
  unfold jsRound
  rw [Int.le_floor]
  push_cast
  linarith

lemma clampRound_nonneg (s : ℝ) : 0 ≤ jsRound (max 0 (min 100 s)) :=
  jsRound_nonneg (le_max_left _ _)

lemma clampRound_le_hundred (s : ℝ) : jsRound (max 0 (min 100 s)) ≤ 100 := by
  have h : max 0 (min 100 s) ≤ 100 := max_le (by norm_num) (min_le_left _ _)
  calc jsRound (max 0 (min 100 s)) ≤ jsRound 100 := jsRound_mono h
  _ = 100 := jsRound_hundred

lemma round_clamp_comm (s : ℝ) :
    jsRound (max 0 (min 100 s)) = max 0 (min 100 (jsRound s)) := by
  rcases le_total s 0 with h | h
  · have h2 : jsRound s ≤ 0 := by
      have h3 := jsRound_mono h
      rwa [jsRound_zero] at h3
    rw [min_eq_right (by linarith : s ≤ (100:ℝ)), max_eq_left h, jsRound_zero,
      min_eq_right (le_trans h2 (by norm_num)), max_eq_left h2]
  · rcases le_total s 100 with h' | h'
    · have h3 : 0 ≤ jsRound s := jsRound_nonneg h
      have h4 : jsRound s ≤ 100 := by
        have h5 := jsRound_mono h'
        rwa [jsRound_hundred] at h5
      rw [min_eq_right h', max_eq_right h, min_eq_right h4, max_eq_right h3]
    · have h2 : 100 ≤ jsRound s := by
        have h5 := jsRound_mono h'
        rwa [jsRound_hundred] at h5
      rw [min_eq_left h', max_eq_right (by norm_num : (0:ℝ) ≤ 100), jsRound_hundred,
        min_eq_left h2, max_eq_right (by norm_num : (0:ℤ) ≤ 100)]

/-! ### Evaluation lemmas for the audit pipeline -/

lemma speedIndexScore_nan : SpeedIndexMetric.speedIndexScore JSNum.nan = JSNum.nan := rfl

lemma speedIndexScore_val (x : ℝ) :
    SpeedIndexMetric.speedIndexScore (JSNum.val x) =
      JSNum.val ((jsRound (max 0 (min 100 (100 *
        (TracingProcessor.getLogNormalDistribution SCORING_MEDIAN
          SCORING_POINT_OF_DIMINISHING_RETURNS).computeComplementaryPercentile x))) : ℤ) : ℝ) :=
  rfl

lemma audit_ok {a : Artifacts} {si : JSNum}
    (h : SpeedIndexMetric.traceStage a = Except.ok si) :
    SpeedIndexMetric.audit a =
      { score := SpeedIndexMetric.speedIndexScore si,
        rawValue := some (si.lift fun s => ((jsRound s : ℤ) : ℝ)),
        debugString := none } := by
  unfold SpeedIndexMetric.audit
  rw [h]
  rfl

lemma audit_ok_val {a : Artifacts} {x : ℝ}
    (h : SpeedIndexMetric.traceStage a = Except.ok (JSNum.val x)) :
    SpeedIndexMetric.audit a =
      { score := JSNum.val ((jsRound (max 0 (min 100 (100 *
          (TracingProcessor.getLogNormalDistribution SCORING_MEDIAN
            SCORING_POINT_OF_DIMINISHING_RETURNS).computeComplementaryPercentile x))) : ℤ) : ℝ),
        rawValue := some (JSNum.val ((jsRound x : ℤ) : ℝ)),
        debugString := none } := by
  rw [audit_ok h]
  rfl

lemma audit_error {a : Artifacts} {msg : String}
    (h : SpeedIndexMetric.traceStage a = Except.error msg) :
    SpeedIndexMetric.audit a =
      { score := JSNum.val (-1), rawValue := none, debugString := some msg } := by
  unfold SpeedIndexMetric.audit
  rw [h]
  rfl

/-! ### Monotonicity and range of the modelled scorer -/

lemma zScorePoly_mono {a b : ℝ} (hab : a ≤ b) :
    TracingProcessor.zScorePoly a ≤ TracingProcessor.zScorePoly b := by
  unfold TracingProcessor.zScorePoly
  have h := sub_nonneg.2 hab
  nlinarith [mul_nonneg h (sq_nonneg (a + b)), mul_nonneg h (sq_nonneg a),
    mul_nonneg h (sq_nonneg b)]

lemma stdNormalCDF_nonneg (z : ℝ) : 0 ≤ TracingProcessor.stdNormalCDF z := by
  unfold TracingProcessor.stdNormalCDF
  positivity

lemma stdNormalCDF_le_one (z : ℝ) : TracingProcessor.stdNormalCDF z ≤ 1 := by
  unfold TracingProcessor.stdNormalCDF
  rw [div_le_one (by positivity)]
  linarith [Real.exp_pos (-(TracingProcessor.zScorePoly z))]

lemma stdNormalCDF_mono {a b : ℝ} (hab : a ≤ b) :
    TracingProcessor.stdNormalCDF a ≤ TracingProcessor.stdNormalCDF b := by
  unfold TracingProcessor.stdNormalCDF
  have hg := zScorePoly_mono hab
  have he : Real.exp (-(TracingProcessor.zScorePoly b)) ≤
      Real.exp (-(TracingProcessor.zScorePoly a)) := Real.exp_le_exp.mpr (by linarith)
  have h1 : (0:ℝ) < 1 + Real.exp (-(TracingProcessor.zScorePoly b)) := by positivity
  exact one_div_le_one_div_of_le h1 (by linarith)

lemma cp_of_nonpos (median pdr : ℝ) {x : ℝ} (h : x ≤ 0) :
    (TracingProcessor.getLogNormalDistribution median pdr).computeComplementaryPercentile x
      = 1 := by
  simp [TracingProcessor.getLogNormalDistribution, h]

lemma cp_of_pos (median pdr : ℝ) {x : ℝ} (h : 0 < x) :
    (TracingProcessor.getLogNormalDistribution median pdr).computeComplementaryPercentile x
      = 1 - TracingProcessor.stdNormalCDF ((Real.log x - Real.log median) /
          (Real.log (median / pdr) / TracingProcessor.referenceZ)) := by
  simp [TracingProcessor.getLogNormalDistribution, not_le.mpr h]

/-! ### Claim theorems: orchestration and error handling -/

/-- C1: `audit` never propagates an exception: it is a total function into the
result record, and whenever the measurement-retrieval chain fails with an error
whose message is `msg` (a malformed trace or a `speedline` rejection), the
returned result is the structured failure with `score = -1` and the failure
reason as its debug message. -/
theorem claim_C1 (a : Artifacts) (msg : String)
    (h : SpeedIndexMetric.traceStage a = Except.error msg) :
    SpeedIndexMetric.audit a =
      { score := JSNum.val (-1), rawValue := none, debugString := some msg } :=
  audit_error h

theorem claim_C1_witness :
    SpeedIndexMetric.audit ⟨false, SpeedlineOutcome.resolves JSNum.nan⟩ =
      { score := JSNum.val (-1), rawValue := none, debugString := some FAILURE_MESSAGE } :=
  claim_C1 ⟨false, SpeedlineOutcome.resolves JSNum.nan⟩ FAILURE_MESSAGE rfl

/-- C2 counterexample: the claim demands a non-empty debug message on every
failure, but when the `speedline` collaborator rejects with an error whose
`message` is the empty string, the recovered result pairs `score = -1` with
the empty debug message. -/
theorem claim_C2_counterexample :
    (SpeedIndexMetric.audit ⟨true, SpeedlineOutcome.throws ""⟩).score = JSNum.val (-1) ∧
    (SpeedIndexMetric.audit ⟨true, SpeedlineOutcome.throws ""⟩).debugString = some "" ∧
    ("" : String).length = 0 :=
  ⟨rfl, rfl, rfl⟩

/-- C2 amended: on success with a non-negative numeric measurement the score is
an integer in `[0, 100]` and the raw value a non-negative integer; on failure
the score is exactly `-1` and the debug message is the failure's own message —
in particular the fixed, non-empty message whenever the trace is malformed
(rather than non-empty on every failure, which the empty-message rejection
refutes). -/
theorem claim_C2_amended (a : Artifacts) :
    (∀ x : ℝ, SpeedIndexMetric.traceStage a = Except.ok (JSNum.val x) → 0 ≤ x →
      (∃ n : ℤ, 0 ≤ n ∧ n ≤ 100 ∧ (SpeedIndexMetric.audit a).score = JSNum.val (n : ℝ)) ∧
      ∃ m : ℤ, 0 ≤ m ∧ (SpeedIndexMetric.audit a).rawValue = some (JSNum.val (m : ℝ))) ∧
    (∀ msg, SpeedIndexMetric.traceStage a = Except.error msg →
      (SpeedIndexMetric.audit a).score = JSNum.val (-1) ∧
      (SpeedIndexMetric.audit a).debugString = some msg) ∧
    (a.traceContentsIsArray = false →
      (SpeedIndexMetric.audit a).debugString = some FAILURE_MESSAGE ∧
      FAILURE_MESSAGE ≠ "") := by
  refine ⟨?_, ?_, ?_⟩
  · intro x h hx
    rw [audit_ok_val h]
    exact ⟨⟨jsRound (max 0 (min 100 (100 *
        (TracingProcessor.getLogNormalDistribution SCORING_MEDIAN
          SCORING_POINT_OF_DIMINISHING_RETURNS).computeComplementaryPercentile x))),
      clampRound_nonneg _, clampRound_le_hundred _, rfl⟩,
      jsRound x, jsRound_nonneg hx, rfl⟩
  · intro msg h
    rw [audit_error h]
    exact ⟨rfl, rfl⟩
  · intro h
    have ht : SpeedIndexMetric.traceStage a = Except.error FAILURE_MESSAGE := by
      unfold SpeedIndexMetric.traceStage
      rw [h]
      rfl
    rw [audit_error ht]
    exact ⟨rfl, by decide⟩

theorem claim_C2_amended_witness :
    (∃ n : ℤ, 0 ≤ n ∧ n ≤ 100 ∧
      (SpeedIndexMetric.audit ⟨true, SpeedlineOutcome.resolves (JSNum.val 5500)⟩).score
        = JSNum.val (n : ℝ)) ∧
    (SpeedIndexMetric.audit ⟨false, SpeedlineOutcome.resolves JSNum.nan⟩).debugString
      = some FAILURE_MESSAGE :=
  ⟨((claim_C2_amended ⟨true, SpeedlineOutcome.resolves (JSNum.val 5500)⟩).1 5500 rfl
      (by norm_num)).1,
    ((claim_C2_amended ⟨false, SpeedlineOutcome.resolves JSNum.nan⟩).2.2 rfl).1⟩

/-- C3 counterexample: when the trace is a well-formed array and `speedline`
resolves with a non-numeric `speedIndex`, the audit does not return the fixed
failure message: the `NaN` propagates through the arithmetic and the result is
success-shaped with a `NaN` score and raw value and no debug message. -/
theorem claim_C3_counterexample :
    (SpeedIndexMetric.audit ⟨true, SpeedlineOutcome.resolves JSNum.nan⟩).debugString = none ∧
    (SpeedIndexMetric.audit ⟨true, SpeedlineOutcome.resolves JSNum.nan⟩).score = JSNum.nan ∧
    (SpeedIndexMetric.audit ⟨true, SpeedlineOutcome.resolves JSNum.nan⟩).rawValue
      = some JSNum.nan :=
  ⟨rfl, rfl, rfl⟩

/-- C3 amended: the audit returns the recoverable failure with message exactly
`FAILURE_MESSAGE` whenever the trace is absent or not an array; a `speedline`
rejection instead carries that rejection's own message, and a resolved result
with non-numeric `speedIndex` yields a `NaN`-valued success-shaped result
rather than the fixed message. -/
theorem claim_C3_amended (a : Artifacts) :
    (a.traceContentsIsArray = false →
      SpeedIndexMetric.audit a =
        { score := JSNum.val (-1), rawValue := none, debugString := some FAILURE_MESSAGE }) ∧
    (∀ msg, a.traceContentsIsArray = true → a.speedline = SpeedlineOutcome.throws msg →
      SpeedIndexMetric.audit a =
        { score := JSNum.val (-1), rawValue := none, debugString := some msg }) ∧
    (a.traceContentsIsArray = true → a.speedline = SpeedlineOutcome.resolves JSNum.nan →
      SpeedIndexMetric.audit a =
        { score := JSNum.nan, rawValue := some JSNum.nan, debugString := none }) := by
  obtain ⟨t, sl⟩ := a
  refine ⟨?_, ?_, ?_⟩
  · rintro rfl
    exact audit_error rfl
  · rintro msg rfl rfl
    exact audit_error rfl
  · rintro rfl rfl
    rfl

theorem claim_C3_amended_witness :
    SpeedIndexMetric.audit ⟨false, SpeedlineOutcome.throws "boom"⟩ =
      { score := JSNum.val (-1), rawValue := none, debugString := some FAILURE_MESSAGE } :=
  (claim_C3_amended ⟨false, SpeedlineOutcome.throws "boom"⟩).1 rfl

/-! ### Claim theorems: success-path functional correctness -/

/-- C4: on a valid numeric measurement the success result carries
`score = clamp (round (100 * p)) 0 100` (the spec's round-then-clamp order)
and `rawValue = round x`; the first conjunct shows the code's
clamp-then-round order of lines 90-95 agrees with the spec's order for every
real input. -/
theorem claim_C4 :
    (∀ s : ℝ, jsRound (max 0 (min 100 s)) = max 0 (min 100 (jsRound s))) ∧
    ∀ (a : Artifacts) (x : ℝ),
      SpeedIndexMetric.traceStage a = Except.ok (JSNum.val x) →
      (SpeedIndexMetric.audit a).score = JSNum.val ((max 0 (min 100 (jsRound (100 *
        (TracingProcessor.getLogNormalDistribution SCORING_MEDIAN
          SCORING_POINT_OF_DIMINISHING_RETURNS).computeComplementaryPercentile x))) : ℤ) : ℝ) ∧
      (SpeedIndexMetric.audit a).rawValue = some (JSNum.val ((jsRound x : ℤ) : ℝ)) := by
  refine ⟨round_clamp_comm, ?_⟩
  intro a x h
  rw [audit_ok_val h]
  exact ⟨by rw [round_clamp_comm], rfl⟩

theorem claim_C4_witness :
    jsRound (max 0 (min 100 (250:ℝ))) = max 0 (min 100 (jsRound (250:ℝ))) ∧
    (SpeedIndexMetric.audit ⟨true, SpeedlineOutcome.resolves (JSNum.val 5500)⟩).rawValue
      = some (JSNum.val ((jsRound (5500:ℝ) : ℤ) : ℝ)) :=
  ⟨claim_C4.1 250,
    (claim_C4.2 ⟨true, SpeedlineOutcome.resolves (JSNum.val 5500)⟩ 5500 rfl).2⟩

/-- C7: a measurement of exactly `0` scores `100` (the log-normal CDF is `0`
at `0`, the complementary percentile `1`, and `100` survives the clamp) with
`rawValue = 0`. -/
theorem claim_C7 (a : Artifacts)
    (h : SpeedIndexMetric.traceStage a = Except.ok (JSNum.val 0)) :
    (SpeedIndexMetric.audit a).score = JSNum.val 100 ∧
    (SpeedIndexMetric.audit a).rawValue = some (JSNum.val 0) := by
  rw [audit_ok_val h]
  constructor
  · have hcp : (TracingProcessor.getLogNormalDistribution SCORING_MEDIAN
        SCORING_POINT_OF_DIMINISHING_RETURNS).computeComplementaryPercentile 0 = 1 :=
      cp_of_nonpos _ _ le_rfl
    show JSNum.val _ = JSNum.val 100
    rw [hcp]
    norm_num [min_self, max_eq_right (by norm_num : (0:ℝ) ≤ 100), jsRound_hundred]
  · show some (JSNum.val _) = some (JSNum.val 0)
    rw [jsRound_zero]
    norm_num

theorem claim_C7_witness :
    (SpeedIndexMetric.audit ⟨true, SpeedlineOutcome.resolves (JSNum.val 0)⟩).score
      = JSNum.val 100 ∧
    (SpeedIndexMetric.audit ⟨true, SpeedlineOutcome.resolves (JSNum.val 0)⟩).rawValue
      = some (JSNum.val 0) :=
  claim_C7 ⟨true, SpeedlineOutcome.resolves (JSNum.val 0)⟩ rfl

/-- C8: the constant audit metadata exposed to the reporting layer. -/
theorem claim_C8 :
    SpeedIndexMetric.category = "Performance" ∧
    SpeedIndexMetric.name = "speed-index-metric" ∧
    SpeedIndexMetric.description = "Speed Index" ∧
    SpeedIndexMetric.optimalValue = "1,000" :=
  ⟨rfl, rfl, rfl, rfl⟩

/-- C9: the clamp of lines 90-92 makes the success score total and in range,
whatever real value the distribution model returns — even one outside
`[0, 1]` the rounded clamped score is an integer in `[0, 100]`. -/
theorem claim_C9 (p : ℝ) :
    0 ≤ jsRound (max 0 (min 100 (100 * p))) ∧
    jsRound (max 0 (min 100 (100 * p))) ≤ 100 :=
  ⟨clampRound_nonneg _, clampRound_le_hundred _⟩

theorem claim_C9_witness :
    0 ≤ jsRound (max 0 (min 100 (100 * (42:ℝ)))) ∧
    jsRound (max 0 (min 100 (100 * (42:ℝ)))) ≤ 100 :=
  claim_C9 42

/-- C10: a failure-shaped result carries no measurement data: every recovered
failure returns `score = -1`, the failure's message, and an absent
`rawValue`; conversely a result that does carry a `rawValue` never has the
failure score `-1`. -/
theorem claim_C10 (a : Artifacts) :
    (∀ msg, SpeedIndexMetric.traceStage a = Except.error msg →
      (SpeedIndexMetric.audit a).score = JSNum.val (-1) ∧
      (SpeedIndexMetric.audit a).debugString = some msg ∧
      (SpeedIndexMetric.audit a).rawValue = none) ∧
    ((SpeedIndexMetric.audit a).rawValue ≠ none →
      (SpeedIndexMetric.audit a).score ≠ JSNum.val (-1)) := by
  constructor
  · intro msg h
    rw [audit_error h]
    exact ⟨rfl, rfl, rfl⟩
  · intro hraw
    cases h : SpeedIndexMetric.traceStage a with
    | error msg =>
        rw [audit_error h] at hraw
        exact absurd rfl hraw
    | ok si =>
        rw [audit_ok h]
        rcases si with _ | x
        · rw [speedIndexScore_nan]
          simp
        · rw [speedIndexScore_val]
          intro hc
          have hinj : ((jsRound (max 0 (min 100 (100 *
              (TracingProcessor.getLogNormalDistribution SCORING_MEDIAN
                SCORING_POINT_OF_DIMINISHING_RETURNS).computeComplementaryPercentile x))) :
                  ℤ) : ℝ) = -1 := by
            injection hc
          have h0 : (0:ℝ) ≤ ((jsRound (max 0 (min 100 (100 *
              (TracingProcessor.getLogNormalDistribution SCORING_MEDIAN
                SCORING_POINT_OF_DIMINISHING_RETURNS).computeComplementaryPercentile x))) :
                  ℤ) : ℝ) := by
            exact_mod_cast clampRound_nonneg _
          linarith

theorem claim_C10_witness :
    (SpeedIndexMetric.audit ⟨true, SpeedlineOutcome.throws "oops"⟩).score
      = JSNum.val (-1) ∧
    (SpeedIndexMetric.audit ⟨true, SpeedlineOutcome.throws "oops"⟩).debugString
      = some "oops" ∧
    (SpeedIndexMetric.audit ⟨true, SpeedlineOutcome.throws "oops"⟩).rawValue = none :=
  (claim_C10 ⟨true, SpeedlineOutcome.throws "oops"⟩).1 "oops" rfl

/-- C6: the complementary percentile is antitone: for every model built from
a valid calibration (`0 < pdr < median`) and measurements `0 ≤ x1 < x2`, the
slower measurement gets the smaller percentile — and consequently (second
conjunct) never a higher rounded, clamped score. -/
theorem claim_C6 (median pdr x1 x2 : ℝ) (hpdr : 0 < pdr) (hmp : pdr < median)
    (hx1 : 0 ≤ x1) (hx12 : x1 < x2) :
    (TracingProcessor.getLogNormalDistribution median pdr).computeComplementaryPercentile x2
      ≤ (TracingProcessor.getLogNormalDistribution median
          pdr).computeComplementaryPercentile x1 ∧
    jsRound (max 0 (min 100 (100 * (TracingProcessor.getLogNormalDistribution median
        pdr).computeComplementaryPercentile x2)))
      ≤ jsRound (max 0 (min 100 (100 * (TracingProcessor.getLogNormalDistribution median
        pdr).computeComplementaryPercentile x1))) := by
  have hx2 : 0 < x2 := lt_of_le_of_lt hx1 hx12
  have key : (TracingProcessor.getLogNormalDistribution median
      pdr).computeComplementaryPercentile x2
      ≤ (TracingProcessor.getLogNormalDistribution median
          pdr).computeComplementaryPercentile x1 := by
    rcases eq_or_lt_of_le hx1 with h1 | h1
    · rw [cp_of_nonpos median pdr (le_of_eq h1.symm), cp_of_pos median pdr hx2]
      linarith [stdNormalCDF_nonneg ((Real.log x2 - Real.log median) /
        (Real.log (median / pdr) / TracingProcessor.referenceZ))]
    · rw [cp_of_pos median pdr h1, cp_of_pos median pdr hx2]
      have hσ : 0 < Real.log (median / pdr) / TracingProcessor.referenceZ := by
        apply div_pos
        · exact Real.log_pos ((one_lt_div hpdr).mpr hmp)
        · norm_num [TracingProcessor.referenceZ]
      have hlog : Real.log x1 ≤ Real.log x2 := le_of_lt (Real.log_lt_log h1 hx12)
      have hz : (Real.log x1 - Real.log median) /
          (Real.log (median / pdr) / TracingProcessor.referenceZ)
          ≤ (Real.log x2 - Real.log median) /
          (Real.log (median / pdr) / TracingProcessor.referenceZ) :=
        (div_le_div_iff_of_pos_right hσ).mpr (by linarith)
      exact sub_le_sub_left (stdNormalCDF_mono hz) 1
  exact ⟨key, jsRound_mono (max_le_max le_rfl (min_le_min le_rfl (by linarith)))⟩

theorem claim_C6_witness :
    (TracingProcessor.getLogNormalDistribution 5500 1250).computeComplementaryPercentile 2
      ≤ (TracingProcessor.getLogNormalDistribution 5500
          1250).computeComplementaryPercentile 1 ∧
    jsRound (max 0 (min 100 (100 * (TracingProcessor.getLogNormalDistribution 5500
        1250).computeComplementaryPercentile 2)))
      ≤ jsRound (max 0 (min 100 (100 * (TracingProcessor.getLogNormalDistribution 5500
        1250).computeComplementaryPercentile 1))) :=
  claim_C6 5500 1250 1 2 (by norm_num) (by norm_num) (by norm_num) (by norm_num)

/-! ### Numerical bounds on the logarithms appearing at the anchor points

Each bound writes the argument as `2 ^ k * (1 - x)` with `|x|` small and uses
the Taylor tail estimate `Real.abs_log_sub_add_sum_range_le` together with the
nine-digit bounds on `log 2`. -/

lemma log_bound_2240 :
    (385711557099/50000000000 : ℝ) ≤ Real.log 2240 ∧
    Real.log 2240 ≤ (3085692459/400000000 : ℝ) := by
  have hx : |(-3/32 : ℝ)| < 1 := by
    rw [abs_lt]
    constructor <;> norm_num
  have h := Real.abs_log_sub_add_sum_range_le hx 10
  rw [abs_le] at h
  obtain ⟨h1, h2⟩ := h
  have habs : |(-3/32 : ℝ)| = 3/32 := by
    rw [abs_of_nonpos (by norm_num : (-3/32 : ℝ) ≤ 0)]
    norm_num
  rw [habs] at h1 h2
  norm_num [Finset.sum_range_succ] at h1 h2
  have hrepr : (2240 : ℝ) = 2 ^ 11 * (35/32) := by norm_num
  have hlog : Real.log 2240 = 11 * Real.log 2 + Real.log (35/32) := by
    rw [hrepr, Real.log_mul (by positivity) (by norm_num), Real.log_pow]
    norm_num
  have hl2a := Real.log_two_gt_d9
  have hl2b := Real.log_two_lt_d9
  constructor
  · rw [hlog]
    linarith
  · rw [hlog]
    linarith

lemma log_bound_3430 :
    (814031553703/100000000000 : ℝ) ≤ Real.log 3430 ∧
    Real.log 3430 ≤ (162806310861/20000000000 : ℝ) := by
  have hx : |(333/2048 : ℝ)| < 1 := by
    rw [abs_lt]
    constructor <;> norm_num
  have h := Real.abs_log_sub_add_sum_range_le hx 14
  rw [abs_le] at h
  obtain ⟨h1, h2⟩ := h
  have habs : |(333/2048 : ℝ)| = 333/2048 := by
    rw [abs_of_nonneg (by norm_num : (0:ℝ) ≤ 333/2048)]
  rw [habs] at h1 h2
  norm_num [Finset.sum_range_succ] at h1 h2
  have hrepr : (3430 : ℝ) = 2 ^ 12 * (1715/2048) := by norm_num
  have hlog : Real.log 3430 = 12 * Real.log 2 + Real.log (1715/2048) := by
    rw [hrepr, Real.log_mul (by positivity) (by norm_num), Real.log_pow]
    norm_num
  have hl2a := Real.log_two_gt_d9
  have hl2b := Real.log_two_lt_d9
  constructor
  · rw [hlog]
    linarith
  · rw [hlog]
    linarith

lemma log_bound_5500 :
    (861250336783/100000000000 : ℝ) ≤ Real.log 5500 ∧
    Real.log 5500 ≤ (215312584359/25000000000 : ℝ) := by
  have hx : |(-351/1024 : ℝ)| < 1 := by
    rw [abs_lt]
    constructor <;> norm_num
  have h := Real.abs_log_sub_add_sum_range_le hx 20
  rw [abs_le] at h
  obtain ⟨h1, h2⟩ := h
  have habs : |(-351/1024 : ℝ)| = 351/1024 := by
    rw [abs_of_nonpos (by norm_num : (-351/1024 : ℝ) ≤ 0)]
    norm_num
  rw [habs] at h1 h2
  norm_num [Finset.sum_range_succ] at h1 h2
  have hrepr : (5500 : ℝ) = 2 ^ 12 * (1375/1024) := by norm_num
  have hlog : Real.log 5500 = 12 * Real.log 2 + Real.log (1375/1024) := by
    rw [hrepr, Real.log_mul (by positivity) (by norm_num), Real.log_pow]
    norm_num
  have hl2a := Real.log_two_gt_d9
  have hl2b := Real.log_two_lt_d9
  constructor
  · rw [hlog]
    linarith
  · rw [hlog]
    linarith

lemma log_bound_8820 :
    (454238857281/50000000000 : ℝ) ≤ Real.log 8820 ∧
    Real.log 8820 ≤ (908477715213/100000000000 : ℝ) := by
  have hx : |(-157/2048 : ℝ)| < 1 := by
    rw [abs_lt]
    constructor <;> norm_num
  have h := Real.abs_log_sub_add_sum_range_le hx 10
  rw [abs_le] at h
  obtain ⟨h1, h2⟩ := h
  have habs : |(-157/2048 : ℝ)| = 157/2048 := by
    rw [abs_of_nonpos (by norm_num : (-157/2048 : ℝ) ≤ 0)]
    norm_num
  rw [habs] at h1 h2
  norm_num [Finset.sum_range_succ] at h1 h2
  have hrepr : (8820 : ℝ) = 2 ^ 13 * (2205/2048) := by norm_num
  have hlog : Real.log 8820 = 13 * Real.log 2 + Real.log (2205/2048) := by
    rw [hrepr, Real.log_mul (by positivity) (by norm_num), Real.log_pow]
    norm_num
  have hl2a := Real.log_two_gt_d9
  have hl2b := Real.log_two_lt_d9
  constructor
  · rw [hlog]
    linarith
  · rw [hlog]
    linarith

lemma log_bound_17400 :
    (244105637039/25000000000 : ℝ) ≤ Real.log 17400 ∧
    Real.log 17400 ≤ (976422548857/100000000000 : ℝ) := by
  have hx : |(-127/2048 : ℝ)| < 1 := by
    rw [abs_lt]
    constructor <;> norm_num
  have h := Real.abs_log_sub_add_sum_range_le hx 10
  rw [abs_le] at h
  obtain ⟨h1, h2⟩ := h
  have habs : |(-127/2048 : ℝ)| = 127/2048 := by
    rw [abs_of_nonpos (by norm_num : (-127/2048 : ℝ) ≤ 0)]
    norm_num
  rw [habs] at h1 h2
  norm_num [Finset.sum_range_succ] at h1 h2
  have hrepr : (17400 : ℝ) = 2 ^ 14 * (2175/2048) := by norm_num
  have hlog : Real.log 17400 = 14 * Real.log 2 + Real.log (2175/2048) := by
    rw [hrepr, Real.log_mul (by positivity) (by norm_num), Real.log_pow]
    norm_num
  have hl2a := Real.log_two_gt_d9
  have hl2b := Real.log_two_lt_d9
  constructor
  · rw [hlog]
    linarith
  · rw [hlog]
    linarith

lemma log_bound_ratio :
    (148160454039/100000000000 : ℝ) ≤ Real.log (22/5) ∧
    Real.log (22/5) ≤ (74080227071/50000000000 : ℝ) := by
  have hx : |(-1/10 : ℝ)| < 1 := by
    rw [abs_lt]
    constructor <;> norm_num
  have h := Real.abs_log_sub_add_sum_range_le hx 10
  rw [abs_le] at h
  obtain ⟨h1, h2⟩ := h
  have habs : |(-1/10 : ℝ)| = 1/10 := by
    rw [abs_of_nonpos (by norm_num : (-1/10 : ℝ) ≤ 0)]
    norm_num
  rw [habs] at h1 h2
  norm_num [Finset.sum_range_succ] at h1 h2
  have hrepr : (22/5 : ℝ) = 2 ^ 2 * (11/10) := by norm_num
  have hlog : Real.log (22/5) = 2 * Real.log 2 + Real.log (11/10) := by
    rw [hrepr, Real.log_mul (by positivity) (by norm_num), Real.log_pow]
    norm_num
  have hl2a := Real.log_two_gt_d9
  have hl2b := Real.log_two_lt_d9
  constructor
  · rw [hlog]
    linarith
  · rw [hlog]
    linarith

/-! ### Numerical bounds on the exponentials appearing at the anchor points

Each bound splits the exponent as `4 * d` with `|d| ≤ 1`, applies the Taylor
tail estimate `Real.exp_bound` with 12 terms at `d` and raises the resulting
rational bound to the fourth power. -/

lemma exp_lb_2240 : (891/109 : ℝ) ≤ Real.exp (110027/50000) := by
  have hd : |(110027/200000 : ℝ)| ≤ 1 := by
    rw [abs_le]
    constructor <;> norm_num
  have h := Real.exp_bound hd (show 0 < 12 by norm_num)
  rw [abs_le] at h
  obtain ⟨h1, h2⟩ := h
  have habs : |(110027/200000 : ℝ)| = 110027/200000 := abs_of_nonneg (by norm_num)
  rw [habs] at h1 h2
  norm_num [Finset.sum_range_succ, Nat.factorial] at h1 h2
  have hq : (17334870228181/10000000000000 - 9/5000000000000 : ℝ) ≤
      Real.exp (110027/200000) := by
    linarith
  have hc : (110027/50000 : ℝ) = (4 : ℕ) * (110027/200000 : ℝ) := by norm_num
  rw [hc, Real.exp_nat_mul]
  calc (891/109 : ℝ)
      ≤ (17334870228181/10000000000000 - 9/5000000000000 : ℝ) ^ 4 := by norm_num
  _ ≤ Real.exp (110027/200000) ^ 4 := pow_le_pow_left₀ (by norm_num) hq 4

lemma exp_ub_2240 : Real.exp (68767/31250) ≤ (909/91 : ℝ) := by
  have hd : |(68767/125000 : ℝ)| ≤ 1 := by
    rw [abs_le]
    constructor <;> norm_num
  have h := Real.exp_bound hd (show 0 < 12 by norm_num)
  rw [abs_le] at h
  obtain ⟨h1, h2⟩ := h
  have habs : |(68767/125000 : ℝ)| = 68767/125000 := abs_of_nonneg (by norm_num)
  rw [habs] at h1 h2
  norm_num [Finset.sum_range_succ, Nat.factorial] at h1 h2
  have hq : Real.exp (68767/125000) ≤
      (17334887563061/10000000000000 + 9/5000000000000 : ℝ) := by
    linarith
  have hc : (68767/31250 : ℝ) = (4 : ℕ) * (68767/125000 : ℝ) := by norm_num
  rw [hc, Real.exp_nat_mul]
  calc Real.exp (68767/125000) ^ 4
      ≤ (17334887563061/10000000000000 + 9/5000000000000 : ℝ) ^ 4 :=
        pow_le_pow_left₀ (le_of_lt (Real.exp_pos _)) hq 4
  _ ≤ (909/91 : ℝ) := by norm_num

lemma exp_lb_3430 : (297/103 : ℝ) ≤ Real.exp (137491/125000) := by
  have hd : |(137491/500000 : ℝ)| ≤ 1 := by
    rw [abs_le]
    constructor <;> norm_num
  have h := Real.exp_bound hd (show 0 < 12 by norm_num)
  rw [abs_le] at h
  obtain ⟨h1, h2⟩ := h
  have habs : |(137491/500000 : ℝ)| = 137491/500000 := abs_of_nonneg (by norm_num)
  rw [habs] at h1 h2
  norm_num [Finset.sum_range_succ, Nat.factorial] at h1 h2
  have hq : (13165069775287/10000000000000 - 1/10000000000000 : ℝ) ≤
      Real.exp (137491/500000) := by
    linarith
  have hc : (137491/125000 : ℝ) = (4 : ℕ) * (137491/500000 : ℝ) := by norm_num
  rw [hc, Real.exp_nat_mul]
  calc (297/103 : ℝ)
      ≤ (13165069775287/10000000000000 - 1/10000000000000 : ℝ) ^ 4 := by norm_num
  _ ≤ Real.exp (137491/500000) ^ 4 := pow_le_pow_left₀ (by norm_num) hq 4

lemma exp_ub_3430 : Real.exp (274983/250000) ≤ (303/97 : ℝ) := by
  have hd : |(274983/1000000 : ℝ)| ≤ 1 := by
    rw [abs_le]
    constructor <;> norm_num
  have h := Real.exp_bound hd (show 0 < 12 by norm_num)
  rw [abs_le] at h
  obtain ⟨h1, h2⟩ := h
  have habs : |(274983/1000000 : ℝ)| = 274983/1000000 := abs_of_nonneg (by norm_num)
  rw [habs] at h1 h2
  norm_num [Finset.sum_range_succ, Nat.factorial] at h1 h2
  have hq : Real.exp (274983/1000000) ≤
      (3291270735091/2500000000000 + 1/10000000000000 : ℝ) := by
    linarith
  have hc : (274983/250000 : ℝ) = (4 : ℕ) * (274983/1000000 : ℝ) := by norm_num
  rw [hc, Real.exp_nat_mul]
  calc Real.exp (274983/1000000) ^ 4
      ≤ (3291270735091/2500000000000 + 1/10000000000000 : ℝ) ^ 4 :=
        pow_le_pow_left₀ (le_of_lt (Real.exp_pos _)) hq 4
  _ ≤ (303/97 : ℝ) := by norm_num

lemma exp_lb_8820 : (99/301 : ℝ) ≤ Real.exp (-55007/50000) := by
  have hd : |(-55007/200000 : ℝ)| ≤ 1 := by
    rw [abs_le]
    constructor <;> norm_num
  have h := Real.exp_bound hd (show 0 < 12 by norm_num)
  rw [abs_le] at h
  obtain ⟨h1, h2⟩ := h
  have habs : |(-55007/200000 : ℝ)| = 55007/200000 := by
    rw [abs_of_nonpos (by norm_num : (-55007/200000 : ℝ) ≤ 0)]
    norm_num
  rw [habs] at h1 h2
  norm_num [Finset.sum_range_succ, Nat.factorial] at h1 h2
  have hq : (3797727693329/5000000000000 - 1/10000000000000 : ℝ) ≤
      Real.exp (-55007/200000) := by
    linarith
  have hc : (-55007/50000 : ℝ) = (4 : ℕ) * (-55007/200000 : ℝ) := by norm_num
  rw [hc, Real.exp_nat_mul]
  calc (99/301 : ℝ)
      ≤ (3797727693329/5000000000000 - 1/10000000000000 : ℝ) ^ 4 := by norm_num
  _ ≤ Real.exp (-55007/200000) ^ 4 := pow_le_pow_left₀ (by norm_num) hq 4

lemma exp_ub_8820 : Real.exp (-137517/125000) ≤ (101/299 : ℝ) := by
  have hd : |(-137517/500000 : ℝ)| ≤ 1 := by
    rw [abs_le]
    constructor <;> norm_num
  have h := Real.exp_bound hd (show 0 < 12 by norm_num)
  rw [abs_le] at h
  obtain ⟨h1, h2⟩ := h
  have habs : |(-137517/500000 : ℝ)| = 137517/500000 := by
    rw [abs_of_nonpos (by norm_num : (-137517/500000 : ℝ) ≤ 0)]
    norm_num
  rw [habs] at h1 h2
  norm_num [Finset.sum_range_succ, Nat.factorial] at h1 h2
  have hq : Real.exp (-137517/500000) ≤
      (7595462982119/10000000000000 + 1/10000000000000 : ℝ) := by
    linarith
  have hc : (-137517/125000 : ℝ) = (4 : ℕ) * (-137517/500000 : ℝ) := by norm_num
  rw [hc, Real.exp_nat_mul]
  calc Real.exp (-137517/500000) ^ 4
      ≤ (7595462982119/10000000000000 + 1/10000000000000 : ℝ) ^ 4 :=
        pow_le_pow_left₀ (le_of_lt (Real.exp_pos _)) hq 4
  _ ≤ (101/299 : ℝ) := by norm_num

lemma exp_lb_17400 : (99/1901 : ℝ) ≤ Real.exp (-368091/125000) := by
  have hd : |(-368091/500000 : ℝ)| ≤ 1 := by
    rw [abs_le]
    constructor <;> norm_num
  have h := Real.exp_bound hd (show 0 < 12 by norm_num)
  rw [abs_le] at h
  obtain ⟨h1, h2⟩ := h
  have habs : |(-368091/500000 : ℝ)| = 368091/500000 := by
    rw [abs_of_nonpos (by norm_num : (-368091/500000 : ℝ) ≤ 0)]
    norm_num
  rw [habs] at h1 h2
  norm_num [Finset.sum_range_succ, Nat.factorial] at h1 h2
  have hq : (2394695091523/5000000000000 - 287/5000000000000 : ℝ) ≤
      Real.exp (-368091/500000) := by
    linarith
  have hc : (-368091/125000 : ℝ) = (4 : ℕ) * (-368091/500000 : ℝ) := by norm_num
  rw [hc, Real.exp_nat_mul]
  calc (99/1901 : ℝ)
      ≤ (2394695091523/5000000000000 - 287/5000000000000 : ℝ) ^ 4 := by norm_num
  _ ≤ Real.exp (-368091/500000) ^ 4 := pow_le_pow_left₀ (by norm_num) hq 4

lemma exp_ub_17400 : Real.exp (-736181/250000) ≤ (101/1899 : ℝ) := by
  have hd : |(-736181/1000000 : ℝ)| ≤ 1 := by
    rw [abs_le]
    constructor <;> norm_num
  have h := Real.exp_bound hd (show 0 < 12 by norm_num)
  rw [abs_le] at h
  obtain ⟨h1, h2⟩ := h
  have habs : |(-736181/1000000 : ℝ)| = 736181/1000000 := by
    rw [abs_of_nonpos (by norm_num : (-736181/1000000 : ℝ) ≤ 0)]
    norm_num
  rw [habs] at h1 h2
  norm_num [Finset.sum_range_succ, Nat.factorial] at h1 h2
  have hq : Real.exp (-736181/1000000) ≤
      (119734874311/250000000000 + 287/5000000000000 : ℝ) := by
    linarith
  have hc : (-736181/250000 : ℝ) = (4 : ℕ) * (-736181/1000000 : ℝ) := by norm_num
  rw [hc, Real.exp_nat_mul]
  calc Real.exp (-736181/1000000) ^ 4
      ≤ (119734874311/250000000000 + 287/5000000000000 : ℝ) ^ 4 :=
        pow_le_pow_left₀ (le_of_lt (Real.exp_pos _)) hq 4
  _ ≤ (101/1899 : ℝ) := by norm_num

/-! ### The five anchor points of the calibrated model -/

lemma cp_anchor_2240 :
    (891/1000 : ℝ) ≤ (TracingProcessor.getLogNormalDistribution SCORING_MEDIAN
        SCORING_POINT_OF_DIMINISHING_RETURNS).computeComplementaryPercentile 2240 ∧
    (TracingProcessor.getLogNormalDistribution SCORING_MEDIAN
        SCORING_POINT_OF_DIMINISHING_RETURNS).computeComplementaryPercentile 2240
      ≤ (909/1000 : ℝ) := by
  rw [cp_of_pos _ _ (by norm_num : (0:ℝ) < 2240),
    show SCORING_MEDIAN / SCORING_POINT_OF_DIMINISHING_RETURNS = (22/5 : ℝ) by
      norm_num [SCORING_MEDIAN, SCORING_POINT_OF_DIMINISHING_RETURNS],
    show SCORING_MEDIAN = (5500:ℝ) from rfl,
    show TracingProcessor.referenceZ = (21177/10000 : ℝ) by
      norm_num [TracingProcessor.referenceZ]]
  simp only [TracingProcessor.stdNormalCDF]
  set z : ℝ := (Real.log 2240 - Real.log 5500) / (Real.log (22/5) / (21177/10000)) with hzdef
  obtain ⟨hN1, hN2⟩ := log_bound_2240
  obtain ⟨hM1, hM2⟩ := log_bound_5500
  obtain ⟨hA1, hA2⟩ := log_bound_ratio
  have hσ0 : (0:ℝ) < Real.log (22/5) / (21177/10000) :=
    div_pos (by linarith) (by norm_num)
  have hz1 : (-1283927/1000000 : ℝ) ≤ z := by
    rw [hzdef, le_div_iff₀ hσ0]
    linarith
  have hz2 : z ≤ (-641963/500000 : ℝ) := by
    rw [hzdef, div_le_iff₀ hσ0]
    linarith
  have hG1 : (-68767/31250 : ℝ) ≤ TracingProcessor.zScorePoly z :=
    le_trans (by norm_num [TracingProcessor.zScorePoly]) (zScorePoly_mono hz1)
  have hG2 : TracingProcessor.zScorePoly z ≤ (-110027/50000 : ℝ) :=
    le_trans (zScorePoly_mono hz2) (by norm_num [TracingProcessor.zScorePoly])
  have hE1 : Real.exp (110027/50000 : ℝ) ≤ Real.exp (-TracingProcessor.zScorePoly z) :=
    Real.exp_le_exp.mpr (by linarith)
  have hE2 : Real.exp (-TracingProcessor.zScorePoly z) ≤ Real.exp (68767/31250 : ℝ) :=
    Real.exp_le_exp.mpr (by linarith)
  have hEa : (891/109 : ℝ) ≤ Real.exp (-TracingProcessor.zScorePoly z) :=
    le_trans exp_lb_2240 hE1
  have hEb : Real.exp (-TracingProcessor.zScorePoly z) ≤ (909/91 : ℝ) :=
    le_trans hE2 exp_ub_2240
  have hE0 : (0:ℝ) < 1 + Real.exp (-TracingProcessor.zScorePoly z) := by positivity
  constructor
  · have hkey : 1 / (1 + Real.exp (-TracingProcessor.zScorePoly z)) ≤ 109/1000 := by
      rw [div_le_iff₀ hE0]
      linarith
    linarith
  · have hkey : (91/1000 : ℝ) ≤ 1 / (1 + Real.exp (-TracingProcessor.zScorePoly z)) := by
      rw [le_div_iff₀ hE0]
      linarith
    linarith

lemma cp_anchor_3430 :
    (7425/10000 : ℝ) ≤ (TracingProcessor.getLogNormalDistribution SCORING_MEDIAN
        SCORING_POINT_OF_DIMINISHING_RETURNS).computeComplementaryPercentile 3430 ∧
    (TracingProcessor.getLogNormalDistribution SCORING_MEDIAN
        SCORING_POINT_OF_DIMINISHING_RETURNS).computeComplementaryPercentile 3430
      ≤ (7575/10000 : ℝ) := by
  rw [cp_of_pos _ _ (by norm_num : (0:ℝ) < 3430),
    show SCORING_MEDIAN / SCORING_POINT_OF_DIMINISHING_RETURNS = (22/5 : ℝ) by
      norm_num [SCORING_MEDIAN, SCORING_POINT_OF_DIMINISHING_RETURNS],
    show SCORING_MEDIAN = (5500:ℝ) from rfl,
    show TracingProcessor.referenceZ = (21177/10000 : ℝ) by
      norm_num [TracingProcessor.referenceZ]]
  simp only [TracingProcessor.stdNormalCDF]
  set z : ℝ := (Real.log 3430 - Real.log 5500) / (Real.log (22/5) / (21177/10000)) with hzdef
  obtain ⟨hN1, hN2⟩ := log_bound_3430
  obtain ⟨hM1, hM2⟩ := log_bound_5500
  obtain ⟨hA1, hA2⟩ := log_bound_ratio
  have hσ0 : (0:ℝ) < Real.log (22/5) / (21177/10000) :=
    div_pos (by linarith) (by norm_num)
  have hz1 : (-21091/31250 : ℝ) ≤ z := by
    rw [hzdef, le_div_iff₀ hσ0]
    linarith
  have hz2 : z ≤ (-674911/1000000 : ℝ) := by
    rw [hzdef, div_le_iff₀ hσ0]
    linarith
  have hG1 : (-274983/250000 : ℝ) ≤ TracingProcessor.zScorePoly z :=
    le_trans (by norm_num [TracingProcessor.zScorePoly]) (zScorePoly_mono hz1)
  have hG2 : TracingProcessor.zScorePoly z ≤ (-137491/125000 : ℝ) :=
    le_trans (zScorePoly_mono hz2) (by norm_num [TracingProcessor.zScorePoly])
  have hE1 : Real.exp (137491/125000 : ℝ) ≤ Real.exp (-TracingProcessor.zScorePoly z) :=
    Real.exp_le_exp.mpr (by linarith)
  have hE2 : Real.exp (-TracingProcessor.zScorePoly z) ≤ Real.exp (274983/250000 : ℝ) :=
    Real.exp_le_exp.mpr (by linarith)
  have hEa : (297/103 : ℝ) ≤ Real.exp (-TracingProcessor.zScorePoly z) :=
    le_trans exp_lb_3430 hE1
  have hEb : Real.exp (-TracingProcessor.zScorePoly z) ≤ (303/97 : ℝ) :=
    le_trans hE2 exp_ub_3430
  have hE0 : (0:ℝ) < 1 + Real.exp (-TracingProcessor.zScorePoly z) := by positivity
  constructor
  · have hkey : 1 / (1 + Real.exp (-TracingProcessor.zScorePoly z)) ≤ 2575/10000 := by
      rw [div_le_iff₀ hE0]
      linarith
    linarith
  · have hkey : (2425/10000 : ℝ) ≤ 1 / (1 + Real.exp (-TracingProcessor.zScorePoly z)) := by
      rw [le_div_iff₀ hE0]
      linarith
    linarith

lemma cp_anchor_5500 :
    (TracingProcessor.getLogNormalDistribution SCORING_MEDIAN
        SCORING_POINT_OF_DIMINISHING_RETURNS).computeComplementaryPercentile 5500
      = (1/2 : ℝ) := by
  rw [cp_of_pos _ _ (by norm_num : (0:ℝ) < 5500),
    show SCORING_MEDIAN = (5500:ℝ) from rfl]
  rw [sub_self, zero_div]
  simp only [TracingProcessor.stdNormalCDF]
  rw [show TracingProcessor.zScorePoly 0 = 0 by norm_num [TracingProcessor.zScorePoly]]
  rw [neg_zero, Real.exp_zero]
  norm_num

lemma cp_anchor_8820 :
    (2475/10000 : ℝ) ≤ (TracingProcessor.getLogNormalDistribution SCORING_MEDIAN
        SCORING_POINT_OF_DIMINISHING_RETURNS).computeComplementaryPercentile 8820 ∧
    (TracingProcessor.getLogNormalDistribution SCORING_MEDIAN
        SCORING_POINT_OF_DIMINISHING_RETURNS).computeComplementaryPercentile 8820
      ≤ (2525/10000 : ℝ) := by
  rw [cp_of_pos _ _ (by norm_num : (0:ℝ) < 8820),
    show SCORING_MEDIAN / SCORING_POINT_OF_DIMINISHING_RETURNS = (22/5 : ℝ) by
      norm_num [SCORING_MEDIAN, SCORING_POINT_OF_DIMINISHING_RETURNS],
    show SCORING_MEDIAN = (5500:ℝ) from rfl,
    show TracingProcessor.referenceZ = (21177/10000 : ℝ) by
      norm_num [TracingProcessor.referenceZ]]
  simp only [TracingProcessor.stdNormalCDF]
  set z : ℝ := (Real.log 8820 - Real.log 5500) / (Real.log (22/5) / (21177/10000)) with hzdef
  obtain ⟨hN1, hN2⟩ := log_bound_8820
  obtain ⟨hM1, hM2⟩ := log_bound_5500
  obtain ⟨hA1, hA2⟩ := log_bound_ratio
  have hσ0 : (0:ℝ) < Real.log (22/5) / (21177/10000) :=
    div_pos (by linarith) (by norm_num)
  have hz1 : (337517/500000 : ℝ) ≤ z := by
    rw [hzdef, le_div_iff₀ hσ0]
    linarith
  have hz2 : z ≤ (135007/200000 : ℝ) := by
    rw [hzdef, div_le_iff₀ hσ0]
    linarith
  have hG1 : (137517/125000 : ℝ) ≤ TracingProcessor.zScorePoly z :=
    le_trans (by norm_num [TracingProcessor.zScorePoly]) (zScorePoly_mono hz1)
  have hG2 : TracingProcessor.zScorePoly z ≤ (55007/50000 : ℝ) :=
    le_trans (zScorePoly_mono hz2) (by norm_num [TracingProcessor.zScorePoly])
  have hE1 : Real.exp (-55007/50000 : ℝ) ≤ Real.exp (-TracingProcessor.zScorePoly z) := by
    apply Real.exp_le_exp.mpr
    linarith
  have hE2 : Real.exp (-TracingProcessor.zScorePoly z) ≤ Real.exp (-137517/125000 : ℝ) := by
    apply Real.exp_le_exp.mpr
    linarith
  have hEa : (99/301 : ℝ) ≤ Real.exp (-TracingProcessor.zScorePoly z) :=
    le_trans exp_lb_8820 hE1
  have hEb : Real.exp (-TracingProcessor.zScorePoly z) ≤ (101/299 : ℝ) :=
    le_trans hE2 exp_ub_8820
  have hE0 : (0:ℝ) < 1 + Real.exp (-TracingProcessor.zScorePoly z) := by positivity
  constructor
  · have hkey : 1 / (1 + Real.exp (-TracingProcessor.zScorePoly z)) ≤ 7525/10000 := by
      rw [div_le_iff₀ hE0]
      linarith
    linarith
  · have hkey : (7475/10000 : ℝ) ≤ 1 / (1 + Real.exp (-TracingProcessor.zScorePoly z)) := by
      rw [le_div_iff₀ hE0]
      linarith
    linarith

lemma cp_anchor_17400 :
    (495/10000 : ℝ) ≤ (TracingProcessor.getLogNormalDistribution SCORING_MEDIAN
        SCORING_POINT_OF_DIMINISHING_RETURNS).computeComplementaryPercentile 17400 ∧
    (TracingProcessor.getLogNormalDistribution SCORING_MEDIAN
        SCORING_POINT_OF_DIMINISHING_RETURNS).computeComplementaryPercentile 17400
      ≤ (505/10000 : ℝ) := by
  rw [cp_of_pos _ _ (by norm_num : (0:ℝ) < 17400),
    show SCORING_MEDIAN / SCORING_POINT_OF_DIMINISHING_RETURNS = (22/5 : ℝ) by
      norm_num [SCORING_MEDIAN, SCORING_POINT_OF_DIMINISHING_RETURNS],
    show SCORING_MEDIAN = (5500:ℝ) from rfl,
    show TracingProcessor.referenceZ = (21177/10000 : ℝ) by
      norm_num [TracingProcessor.referenceZ]]
  simp only [TracingProcessor.stdNormalCDF]
  set z : ℝ := (Real.log 17400 - Real.log 5500) / (Real.log (22/5) / (21177/10000)) with hzdef
  obtain ⟨hN1, hN2⟩ := log_bound_17400
  obtain ⟨hM1, hM2⟩ := log_bound_5500
  obtain ⟨hA1, hA2⟩ := log_bound_ratio
  have hσ0 : (0:ℝ) < Real.log (22/5) / (21177/10000) :=
    div_pos (by linarith) (by norm_num)
  have hz1 : (1646189/1000000 : ℝ) ≤ z := by
    rw [hzdef, le_div_iff₀ hσ0]
    linarith
  have hz2 : z ≤ (164619/100000 : ℝ) := by
    rw [hzdef, div_le_iff₀ hσ0]
    linarith
  have hG1 : (736181/250000 : ℝ) ≤ TracingProcessor.zScorePoly z :=
    le_trans (by norm_num [TracingProcessor.zScorePoly]) (zScorePoly_mono hz1)
  have hG2 : TracingProcessor.zScorePoly z ≤ (368091/125000 : ℝ) :=
    le_trans (zScorePoly_mono hz2) (by norm_num [TracingProcessor.zScorePoly])
  have hE1 : Real.exp (-368091/125000 : ℝ) ≤ Real.exp (-TracingProcessor.zScorePoly z) := by
    apply Real.exp_le_exp.mpr
    linarith
  have hE2 : Real.exp (-TracingProcessor.zScorePoly z) ≤ Real.exp (-736181/250000 : ℝ) := by
    apply Real.exp_le_exp.mpr
    linarith
  have hEa : (99/1901 : ℝ) ≤ Real.exp (-TracingProcessor.zScorePoly z) :=
    le_trans exp_lb_17400 hE1
  have hEb : Real.exp (-TracingProcessor.zScorePoly z) ≤ (101/1899 : ℝ) :=
    le_trans hE2 exp_ub_17400
  have hE0 : (0:ℝ) < 1 + Real.exp (-TracingProcessor.zScorePoly z) := by positivity
  constructor
  · have hkey : 1 / (1 + Real.exp (-TracingProcessor.zScorePoly z)) ≤ 9505/10000 := by
      rw [div_le_iff₀ hE0]
      linarith
    linarith
  · have hkey : (9495/10000 : ℝ) ≤ 1 / (1 + Real.exp (-TracingProcessor.zScorePoly z)) := by
      rw [le_div_iff₀ hE0]
      linarith
    linarith

/-- C5: the distribution model built from the fixed calibration
(`median = 5500`, `pointOfDiminishingReturns = 1250`) reproduces the five
reference points of the spec within ±1% relative tolerance:
`complementaryPercentile ≈ 0.90, 0.75, 0.50, 0.25, 0.05` at
`x = 2240, 3430, 5500, 8820, 17400` respectively. -/
theorem claim_C5 :
    ((891/1000 : ℝ) ≤ (TracingProcessor.getLogNormalDistribution SCORING_MEDIAN
        SCORING_POINT_OF_DIMINISHING_RETURNS).computeComplementaryPercentile 2240 ∧
      (TracingProcessor.getLogNormalDistribution SCORING_MEDIAN
        SCORING_POINT_OF_DIMINISHING_RETURNS).computeComplementaryPercentile 2240
        ≤ (909/1000 : ℝ)) ∧
    ((7425/10000 : ℝ) ≤ (TracingProcessor.getLogNormalDistribution SCORING_MEDIAN
        SCORING_POINT_OF_DIMINISHING_RETURNS).computeComplementaryPercentile 3430 ∧
      (TracingProcessor.getLogNormalDistribution SCORING_MEDIAN
        SCORING_POINT_OF_DIMINISHING_RETURNS).computeComplementaryPercentile 3430
        ≤ (7575/10000 : ℝ)) ∧
    ((495/1000 : ℝ) ≤ (TracingProcessor.getLogNormalDistribution SCORING_MEDIAN
        SCORING_POINT_OF_DIMINISHING_RETURNS).computeComplementaryPercentile 5500 ∧
      (TracingProcessor.getLogNormalDistribution SCORING_MEDIAN
        SCORING_POINT_OF_DIMINISHING_RETURNS).computeComplementaryPercentile 5500
        ≤ (505/1000 : ℝ)) ∧
    ((2475/10000 : ℝ) ≤ (TracingProcessor.getLogNormalDistribution SCORING_MEDIAN
        SCORING_POINT_OF_DIMINISHING_RETURNS).computeComplementaryPercentile 8820 ∧
      (TracingProcessor.getLogNormalDistribution SCORING_MEDIAN
        SCORING_POINT_OF_DIMINISHING_RETURNS).computeComplementaryPercentile 8820
        ≤ (2525/10000 : ℝ)) ∧
    ((495/10000 : ℝ) ≤ (TracingProcessor.getLogNormalDistribution SCORING_MEDIAN
        SCORING_POINT_OF_DIMINISHING_RETURNS).computeComplementaryPercentile 17400 ∧
      (TracingProcessor.getLogNormalDistribution SCORING_MEDIAN
        SCORING_POINT_OF_DIMINISHING_RETURNS).computeComplementaryPercentile 17400
        ≤ (505/10000 : ℝ)) :=
  ⟨cp_anchor_2240, cp_anchor_3430,
    ⟨by rw [cp_anchor_5500]; norm_num, by rw [cp_anchor_5500]; norm_num⟩,
    cp_anchor_8820, cp_anchor_17400⟩
